import Mathlib

/-!
Shallow embedding of `src/main.py`, a FastAPI gateway with:
- two TTL-cached catalog proxy endpoints (`/api/voices`, `/api/avatars`)
- a bearer-token auth dependency (`get_current_user`)
- a shared-secret gate (`verify_n8n_secret`) and an image upload endpoint
- a webhook proxy (`/api/n8n`) and an identity echo endpoint (`/api/me`).

Mutable global state (the two cache dicts) is threaded explicitly as a
`ServerState`; side effects (outbound catalog fetch, webhook post, file
write) are recorded in the handler's output so that frame and
no-downstream-call properties are statable.  Outcomes of external HTTP
calls (identity provider, catalog API, webhook) are inputs to the
handlers, since those services are outside the program.
-/

/-- Python JSON values (`response.json()` results, request bodies). -/
inductive JsonVal where
  | null : JsonVal
  | bool : Bool → JsonVal
  | num : Int → JsonVal
  | str : String → JsonVal
  | arr : List JsonVal → JsonVal
  | obj : List (String × JsonVal) → JsonVal
deriving Repr

/-- Python truthiness of a JSON value (`if voices_cache["data"]`):
`None`, `False`, `0`, `""`, `[]`, `{}` are falsy. -/
def JsonVal.truthy : JsonVal → Bool
  | .null => false
  | .bool b => b
  | .num n => n != 0
  | .str s => s != ""
  | .arr xs => !xs.isEmpty
  | .obj kvs => !kvs.isEmpty

/-- Python truthiness of an optional JSON value (absent = `None` = falsy). -/
def pyTruthy : Option JsonVal → Bool
  | none => false
  | some j => j.truthy

/-- Python truthiness of an optional string (`if not N8N_SECRET_KEY`):
`None` and `""` are falsy. -/
def pyTruthyStr : Option String → Bool
  | none => false
  | some s => s != ""

/-- Python `str()` of an optional value as it appears inside an f-string:
`None` renders as "None". -/
def pyStr : Option String → String
  | none => "None"
  | some s => s

/-- An `HTTPException`: status code plus detail message. -/
structure HttpError where
  status : Nat
  detail : String
deriving Repr, DecidableEq

/-- One cache dict, e.g. `voices_cache = {"data": None, "timestamp": 0}`.
`time.time()` floats are modelled as integers (the claims only use whole
second offsets). -/
structure Cache where
  data : Option JsonVal
  timestamp : Int
deriving Repr

/-- The process's mutable global state: the two cache dicts. -/
structure ServerState where
  voices_cache : Cache
  avatars_cache : Cache
deriving Repr

/-- `CACHE_DURATION_SECONDS = 3600`. -/
def CACHE_DURATION_SECONDS : Int := 3600

/-- The state at process start (`{"data": None, "timestamp": 0}` twice). -/
def initialState : ServerState :=
  ⟨⟨none, 0⟩, ⟨none, 0⟩⟩

/-- A decoded Firebase ID token: a claims dict (string-valued claims
suffice for the properties at hand). -/
structure DecodedToken where
  claims : List (String × String)
deriving Repr, DecidableEq

/-- Python `dict.get`: first binding of the key, or `None`. -/
def DecodedToken.get (t : DecodedToken) (k : String) : Option String :=
  (t.claims.find? (fun p => p.1 == k)).map (fun p => p.2)

/-- Process configuration read from the environment. -/
structure Config where
  N8N_SECRET_KEY : Option String
deriving Repr

/-- `get_current_user` (src/main.py lines 57-71): given the outcome of
`auth.verify_id_token` on the presented credential (success with the
decoded token, or any exception rendered as a string), return the token
or raise 401 with the exception text in the detail. -/
def get_current_user (v : Except String DecodedToken) : Except HttpError DecodedToken :=
  match v with
  | .ok decoded_token => .ok decoded_token
  | .error e => .error ⟨401, "Token de autorización inválido: " ++ e⟩

/-- What the bearer-extraction layer hands the dependency: either no
usable `Authorization: Bearer` credential at all, or a credential whose
provider-side verification had the given outcome. -/
inductive BearerOutcome where
  | missing : BearerOutcome
  | provided : Except String DecodedToken → BearerOutcome

/-- Modelled from the spec: the `HTTPBearer` security scheme
(`security_scheme`, src/main.py line 46) is framework code whose source is
not in the repository; per the spec, a request with a missing bearer
credential to a protected endpoint fails with `Unauthorized` before the
handler runs.  A present credential is passed to `get_current_user`. -/
def bearerGate (b : BearerOutcome) : Except HttpError DecodedToken :=
  match b with
  | .missing => .error ⟨401, "Not authenticated"⟩
  | .provided v => get_current_user v

/-- The body model `N8NBody` (src/main.py lines 48-55).  Note: no `uid`
field is declared. -/
structure N8NBody where
  message : String
  botId : String
  avatarId : Option String
  voiceId : Option String
  videoWidth : Option Int
  videoHeight : Option Int
  type : String
deriving Repr, DecidableEq

/-- The payload posted to the n8n webhook: `body.dict()` plus a `uid`
key. -/
structure N8NPayload where
  message : String
  botId : String
  avatarId : Option String
  voiceId : Option String
  videoWidth : Option Int
  videoHeight : Option Int
  type : String
  uid : Option String
deriving Repr, DecidableEq

/-- `n8n_payload = body.dict(); n8n_payload["uid"] = user_uid`
(src/main.py lines 92-93). -/
def buildN8NPayload (body : N8NBody) (user_uid : Option String) : N8NPayload :=
  { message := body.message, botId := body.botId, avatarId := body.avatarId,
    voiceId := body.voiceId, videoWidth := body.videoWidth,
    videoHeight := body.videoHeight, type := body.type, uid := user_uid }

/-- First value bound to a key in a JSON object body. -/
def lookupKey (k : String) (raw : List (String × JsonVal)) : Option JsonVal :=
  (raw.find? (fun p => p.1 == k)).map (fun p => p.2)

/-- Pydantic validation of a required string field. -/
def reqStrField (raw : List (String × JsonVal)) (k : String) : Except String String :=
  match lookupKey k raw with
  | some (.str s) => .ok s
  | _ => .error ("field required or not a string: " ++ k)

/-- Pydantic validation of an optional string field (absent or `null`
gives `None`). -/
def optStrField (raw : List (String × JsonVal)) (k : String) : Except String (Option String) :=
  match lookupKey k raw with
  | none => .ok none
  | some .null => .ok none
  | some (.str s) => .ok (some s)
  | some _ => .error ("not a string: " ++ k)

/-- Pydantic validation of an optional integer field. -/
def optIntField (raw : List (String × JsonVal)) (k : String) : Except String (Option Int) :=
  match lookupKey k raw with
  | none => .ok none
  | some .null => .ok none
  | some (.num n) => .ok (some n)
  | some _ => .error ("not an integer: " ++ k)

/-- Pydantic parsing of a raw JSON object body into `N8NBody`
(src/main.py lines 48-55): the declared fields are validated and every
other key — `uid` included — is ignored (pydantic's default behaviour for
undeclared fields). -/
def N8NBody.parse (raw : List (String × JsonVal)) : Except String N8NBody := do
  let message ← reqStrField raw "message"
  let botId ← reqStrField raw "botId"
  let avatarId ← optStrField raw "avatarId"
  let voiceId ← optStrField raw "voiceId"
  let videoWidth ← optIntField raw "videoWidth"
  let videoHeight ← optIntField raw "videoHeight"
  let type ← reqStrField raw "type"
  .ok ⟨message, botId, avatarId, voiceId, videoWidth, videoHeight, type⟩

/-- `httpx` success statuses: `raise_for_status` passes exactly on 2xx. -/
def isSuccessStatus (s : Nat) : Bool :=
  200 ≤ s && s < 300

/-- Model of `str(e)` for the exception `raise_for_status` raises on a
non-success status; the claims constrain only the status code and that a
diagnostic text is carried, not the exact text. -/
def statusErrorString (s : Nat) : String :=
  "HTTP status error for status " ++ toString s

/-- Outcome of the outbound catalog HTTP GET, as seen by the handler:
a network error (exception text), or a response with a status code and a
body whose JSON parse either succeeds or fails. -/
inductive FetchOutcome where
  | netError : String → FetchOutcome
  | response : Nat → Except String JsonVal → FetchOutcome

/-- The `try` block `client.get(...); response.raise_for_status();
response.json()` (src/main.py lines 153-155 and 177-179) collapsed to an
`Except`: any network error, non-success status, or body-parse failure is
an exception with some text. -/
def runFetch (o : FetchOutcome) : Except String JsonVal :=
  match o with
  | .netError m => .error m
  | .response s body =>
    if isSuccessStatus s then
      match body with
      | .ok j => .ok j
      | .error m => .error m
    else .error (statusErrorString s)

/-- Outcome of the outbound webhook POST in `/api/n8n`: timeout
(`httpx.TimeoutException`), another delivery failure, or a response with
a status code and raw text body. -/
inductive HttpCallOutcome where
  | timeout : HttpCallOutcome
  | netError : String → HttpCallOutcome
  | response : Nat → String → HttpCallOutcome

/-- Response value of a handler: a JSON value, a raw text body (the
`/api/n8n` relay returns `n8n_response.text`), or an `HTTPException`. -/
inductive Resp where
  | json : JsonVal → Resp
  | text : String → Resp
  | error : Nat → String → Resp
deriving Repr

/-- A file written to storage: its path and bytes. -/
structure WrittenFile where
  path : String
  content : List Nat
deriving Repr, DecidableEq

/-- Result of one request: the response, the global state after the
request, and the downstream effects that occurred — whether the catalog
API was called (`fetched`), the payload posted to the webhook if a post
occurred (`posted`), and the file written to storage if any
(`written`). -/
structure HandleOut where
  resp : Resp
  state : ServerState
  fetched : Bool
  posted : Option N8NPayload
  written : Option WrittenFile
deriving Repr

/-- `get_voices` (src/main.py lines 140-161).  `auth` is the resolved
`Depends(get_current_user)`; when it failed the handler body never runs.
Otherwise: serve the cache if `voices_cache["data"]` is truthy and
`current_time - voices_cache["timestamp"] < CACHE_DURATION_SECONDS`;
else fetch, store on success (both `data` and `timestamp`), and 502 on
any exception, leaving the cache untouched. -/
def get_voices (auth : Except HttpError DecodedToken) (now : Int)
    (st : ServerState) (fetch : FetchOutcome) : HandleOut :=
  match auth with
  | .error e => ⟨.error e.status e.detail, st, false, none, none⟩
  | .ok _ =>
    if pyTruthy st.voices_cache.data = true ∧
        now - st.voices_cache.timestamp < CACHE_DURATION_SECONDS then
      -- cache hit: return `voices_cache["data"]` (truthy, hence present)
      ⟨.json (st.voices_cache.data.getD .null), st, false, none, none⟩
    else
      match runFetch fetch with
      | .ok new_data =>
        ⟨.json new_data, { st with voices_cache := ⟨some new_data, now⟩ },
          true, none, none⟩
      | .error e =>
        ⟨.error 502 ("Error al contactar la API de HeyGen: " ++ e), st,
          true, none, none⟩

/-- `get_avatars` (src/main.py lines 164-184): identical to `get_voices`
but over `avatars_cache`. -/
def get_avatars (auth : Except HttpError DecodedToken) (now : Int)
    (st : ServerState) (fetch : FetchOutcome) : HandleOut :=
  match auth with
  | .error e => ⟨.error e.status e.detail, st, false, none, none⟩
  | .ok _ =>
    if pyTruthy st.avatars_cache.data = true ∧
        now - st.avatars_cache.timestamp < CACHE_DURATION_SECONDS then
      ⟨.json (st.avatars_cache.data.getD .null), st, false, none, none⟩
    else
      match runFetch fetch with
      | .ok new_data =>
        ⟨.json new_data, { st with avatars_cache := ⟨some new_data, now⟩ },
          true, none, none⟩
      | .error e =>
        ⟨.error 502 ("Error al contactar la API de HeyGen: " ++ e), st,
          true, none, none⟩

/-- `proxy_to_n8n` (src/main.py lines 84-110): after auth, build the
payload (`body.dict()` with `uid` overwritten by the verified uid), post
it; on timeout 504, on any other exception or non-success status 502, on
success relay the raw response text. -/
def proxy_to_n8n (auth : Except HttpError DecodedToken) (body : N8NBody)
    (outcome : HttpCallOutcome) (st : ServerState) : HandleOut :=
  match auth with
  | .error e => ⟨.error e.status e.detail, st, false, none, none⟩
  | .ok user_data =>
    let user_uid := user_data.get "uid"
    let n8n_payload := buildN8NPayload body user_uid
    match outcome with
    | .timeout =>
      ⟨.error 504 "Timeout: n8n tardó demasiado en responder.", st,
        false, some n8n_payload, none⟩
    | .netError e =>
      ⟨.error 502 ("Error al contactar n8n: " ++ e), st,
        false, some n8n_payload, none⟩
    | .response s t =>
      if isSuccessStatus s then
        ⟨.text t, st, false, some n8n_payload, none⟩
      else
        ⟨.error 502 ("Error al contactar n8n: " ++ statusErrorString s), st,
          false, some n8n_payload, none⟩

/-- `verify_n8n_secret` (src/main.py lines 77-82): 500 if the configured
secret is falsy (unset or empty), 403 if the supplied header differs from
it, else `True`. -/
def verify_n8n_secret (configured supplied : Option String) : Except HttpError Bool :=
  if pyTruthyStr configured = false then
    .error ⟨500, "La clave secreta del servidor no está configurada."⟩
  else if supplied ≠ configured then
    .error ⟨403, "Acceso denegado: Clave secreta inválida."⟩
  else .ok true

/-- Index of the last occurrence of `c` in `cs`, or `-1` (Python
`str.rfind`). -/
def lastPos (c : Char) (cs : List Char) : Int :=
  cs.enum.foldl (fun acc p => if p.2 = c then (p.1 : Int) else acc) (-1)

/-- `os.path.splitext` (posix): split off the extension at the last dot,
provided it comes after the last separator and the basename has a
non-dot character before it (so dotfiles have no extension). -/
def splitext (p : String) : String × String :=
  let cs := p.toList
  let sepIdx := lastPos '/' cs
  let dotIdx := lastPos '.' cs
  if sepIdx < dotIdx then
    let start := (sepIdx + 1).toNat
    if (List.range' start (dotIdx.toNat - start)).any
        (fun i => cs.getD i ' ' ≠ '.') then
      (String.mk (cs.take dotIdx.toNat), String.mk (cs.drop dotIdx.toNat))
    else (p, "")
  else (p, "")

/-- `upload_image_from_n8n` (src/main.py lines 113-136): after the
shared-secret gate, build `f"{uuid.uuid4()}{file_extension}"` (the fresh
UUID string is an input), write the bytes to
`static/images/<unique_filename>`, and return the public URL
`f"{base_url}/{file_path}"` with `base_url` defaulting to
`http://localhost:8000`. -/
def upload_image_from_n8n (cfg : Config) (supplied : Option String)
    (uid : String) (filename : String) (content : List Nat)
    (uuidStr : String) (baseUrlEnv : Option String)
    (st : ServerState) : HandleOut :=
  match verify_n8n_secret cfg.N8N_SECRET_KEY supplied with
  | .error e => ⟨.error e.status e.detail, st, false, none, none⟩
  | .ok _ =>
    let file_extension := (splitext filename).2
    let unique_filename := uuidStr ++ file_extension
    let file_path := "static/images/" ++ unique_filename
    let base_url := baseUrlEnv.getD "http://localhost:8000"
    let full_image_url := base_url ++ "/" ++ file_path
    ⟨.json (.obj [("imageUrl", .str full_image_url)]), st,
      false, none, some ⟨file_path, content⟩⟩

/-- `get_my_info` (src/main.py lines 188-198). -/
def get_my_info (auth : Except HttpError DecodedToken) (st : ServerState) : HandleOut :=
  match auth with
  | .error e => ⟨.error e.status e.detail, st, false, none, none⟩
  | .ok user_data =>
    ⟨.json (.obj [("message", .str ("¡Hola, " ++ pyStr (user_data.get "email")
        ++ "! Tu UID de Firebase es: " ++ pyStr (user_data.get "uid")))]),
      st, false, none, none⟩

/-- One incoming request, with the environment inputs each handler
consumes: the bearer outcome, the current time, and the outcome of any
outbound call the handler would make. -/
inductive Request where
  | voices : BearerOutcome → Int → FetchOutcome → Request
  | avatars : BearerOutcome → Int → FetchOutcome → Request
  | n8n : BearerOutcome → N8NBody → HttpCallOutcome → Request
  | me : BearerOutcome → Request
  | upload : Option String → String → String → List Nat → String →
      Option String → Request

/-- Dispatch a request against the global state.  Handlers other than the
two catalog endpoints never reference the cache globals, so they leave
the state unchanged. -/
def handle (cfg : Config) (req : Request) (st : ServerState) : HandleOut :=
  match req with
  | .voices b now fetch => get_voices (bearerGate b) now st fetch
  | .avatars b now fetch => get_avatars (bearerGate b) now st fetch
  | .n8n b body outcome => proxy_to_n8n (bearerGate b) body outcome st
  | .me b => get_my_info (bearerGate b) st
  | .upload supplied uid filename content uuidStr baseUrl =>
    upload_image_from_n8n cfg supplied uid filename content uuidStr baseUrl st

/-! ## Concrete fixtures used by witnesses and counterexamples -/

/-- A decoded token for a test user. -/
def u0 : DecodedToken := ⟨[("uid", "user-1"), ("email", "user@example.com")]⟩

/-- A bearer outcome whose verification succeeded with `u0`. -/
def b0 : BearerOutcome := .provided (.ok u0)

/-- A configuration with a non-empty shared secret. -/
def cfg0 : Config := ⟨some "s3cret"⟩

/-- A webhook body. -/
def body0 : N8NBody := ⟨"hola", "bot-1", none, none, none, none, "chat"⟩

/-- State whose two caches hold truthy payloads fetched at time 0. -/
def stCached : ServerState :=
  ⟨⟨some (.str "cached-voices"), 0⟩, ⟨some (.str "cached-avatars"), 0⟩⟩

/-- State whose two caches hold an empty-object (falsy) payload fetched
at time 0. -/
def stEmptyObj : ServerState :=
  ⟨⟨some (.obj []), 0⟩, ⟨some (.obj []), 0⟩⟩

/-- A catalog fetch that succeeds with a fresh payload. -/
def fetchFresh : FetchOutcome := .response 200 (.ok (.str "fresh"))

/-- A catalog fetch that fails with a network error. -/
def fetchFail : FetchOutcome := .netError "boom"

/-! ## Helper lemmas -/

/-- Prepending a binding for a different key does not change a lookup. -/
theorem lookupKey_cons_ne (k k' : String) (v : JsonVal)
    (raw : List (String × JsonVal)) (h : (k' == k) = false) :
    lookupKey k ((k', v) :: raw) = lookupKey k raw := by
  simp [lookupKey, List.find?, h]

/-! ## Claims -/

/-- C8: for any two authenticated requests to the same catalog endpoint
against the same cache state at the same time, the result (response, new
state, and whether a fetch occurred) is identical regardless of which
verified identity made each request: the decoded token serves only as an
access gate. -/
theorem catalog_identity_independent (cfg : Config) (u1 u2 : DecodedToken)
    (now : Int) (st : ServerState) (fetch : FetchOutcome) :
    handle cfg (.voices (.provided (.ok u1)) now fetch) st =
      handle cfg (.voices (.provided (.ok u2)) now fetch) st ∧
    handle cfg (.avatars (.provided (.ok u1)) now fetch) st =
      handle cfg (.avatars (.provided (.ok u2)) now fetch) st := by
  exact ⟨rfl, rfl⟩

/-- C4: every request to a bearer-protected endpoint whose credential is
missing or fails verification gets a 401 response carrying the gate's
diagnostic detail, the global state is unchanged, and no downstream call
occurs (no catalog fetch, no webhook post, no file write). -/
theorem unauthorized_no_downstream (cfg : Config) (st : ServerState)
    (b : BearerOutcome) (err : HttpError) (now : Int) (fetch : FetchOutcome)
    (body : N8NBody) (outcome : HttpCallOutcome)
    (h : bearerGate b = .error err) :
    err.status = 401 ∧
    handle cfg (.voices b now fetch) st =
      ⟨.error err.status err.detail, st, false, none, none⟩ ∧
    handle cfg (.avatars b now fetch) st =
      ⟨.error err.status err.detail, st, false, none, none⟩ ∧
    handle cfg (.n8n b body outcome) st =
      ⟨.error err.status err.detail, st, false, none, none⟩ ∧
    handle cfg (.me b) st =
      ⟨.error err.status err.detail, st, false, none, none⟩ := by
  refine ⟨?_, ?_, ?_, ?_, ?_⟩
  · cases b with
    | missing => simp [bearerGate] at h; simp [← h]
    | provided v =>
      cases v with
      | ok t => simp [bearerGate, get_current_user] at h
      | error e =>
        simp [bearerGate, get_current_user] at h
        simp [← h]
  all_goals simp [handle, get_voices, get_avatars, proxy_to_n8n, get_my_info, h]

/-- Witness for C4 at a concrete rejected credential: the hypothesis
holds, and the concrete requests produce no downstream effect. -/
theorem unauthorized_no_downstream_witness :
    bearerGate (.provided (.error "bad sig")) =
      .error ⟨401, "Token de autorización inválido: bad sig"⟩ ∧
    (handle cfg0 (.voices (.provided (.error "bad sig")) 5 fetchFresh) stCached).fetched = false ∧
    (handle cfg0 (.n8n (.provided (.error "bad sig")) body0 .timeout) stCached).posted = none ∧
    (handle cfg0 (.me (.provided (.error "bad sig"))) stCached).resp =
      .error 401 "Token de autorización inválido: bad sig" := by
  have h := unauthorized_no_downstream cfg0 stCached
    (.provided (.error "bad sig"))
    ⟨401, "Token de autorización inválido: bad sig"⟩ 5 fetchFresh body0
    .timeout rfl
  refine ⟨rfl, ?_, ?_, ?_⟩
  · rw [h.2.1]
  · rw [h.2.2.2.1]
  · rw [h.2.2.2.2]

/-- C1 counterexample: the claim's cache-hit test is payload *presence*,
but the code tests Python truthiness.  With an empty-object payload
stored at time 0 and a request at time 10 (well within the TTL), a
payload exists and `now - fetchedAt < 3600`, yet the handler invokes the
upstream fetch and returns the fresh payload, not the stored one. -/
theorem cache_presence_counterexample :
    stEmptyObj.voices_cache.data = some (.obj []) ∧
    (10 : Int) - stEmptyObj.voices_cache.timestamp < CACHE_DURATION_SECONDS ∧
    (handle cfg0 (.voices b0 10 fetchFresh) stEmptyObj).fetched = true ∧
    (handle cfg0 (.voices b0 10 fetchFresh) stEmptyObj).resp = .json (.str "fresh") := by
  refine ⟨rfl, by decide, rfl, rfl⟩

/-- C1 (amended): the cache-hit test being truthiness, for every
authenticated catalog request: if the stored payload is truthy and
`now - fetchedAt < 3600` the stored payload is returned with no fetch
and no state change; otherwise (absent or falsy payload, or age
`>= 3600`) the upstream fetch runs and, on success, its result is stored
with `fetchedAt = now` and returned.  In particular a truthy entry
fetched at `T` is served from cache at `T+3599` and refetched at
`T+3601`. -/
theorem cache_ttl_read_through (cfg : Config) (b : BearerOutcome)
    (u : DecodedToken) (now : Int) (st : ServerState) (fetch : FetchOutcome)
    (hAuth : bearerGate b = .ok u) :
    (pyTruthy st.voices_cache.data = true ∧
        now - st.voices_cache.timestamp < CACHE_DURATION_SECONDS →
      handle cfg (.voices b now fetch) st =
        ⟨.json (st.voices_cache.data.getD .null), st, false, none, none⟩) ∧
    (¬(pyTruthy st.voices_cache.data = true ∧
        now - st.voices_cache.timestamp < CACHE_DURATION_SECONDS) →
      ∀ j, runFetch fetch = .ok j →
      handle cfg (.voices b now fetch) st =
        ⟨.json j, { st with voices_cache := ⟨some j, now⟩ }, true, none, none⟩) ∧
    (pyTruthy st.avatars_cache.data = true ∧
        now - st.avatars_cache.timestamp < CACHE_DURATION_SECONDS →
      handle cfg (.avatars b now fetch) st =
        ⟨.json (st.avatars_cache.data.getD .null), st, false, none, none⟩) ∧
    (¬(pyTruthy st.avatars_cache.data = true ∧
        now - st.avatars_cache.timestamp < CACHE_DURATION_SECONDS) →
      ∀ j, runFetch fetch = .ok j →
      handle cfg (.avatars b now fetch) st =
        ⟨.json j, { st with avatars_cache := ⟨some j, now⟩ }, true, none, none⟩) := by
  refine ⟨?_, ?_, ?_, ?_⟩
  · intro h
    simp [handle, get_voices, hAuth, h]
  · intro h j hj
    simp [handle, get_voices, hAuth, h, hj]
  · intro h
    simp [handle, get_avatars, hAuth, h]
  · intro h j hj
    simp [handle, get_avatars, hAuth, h, hj]

/-- Witness for C1 (amended) at the claim's own boundary: a truthy entry
fetched at 0 is served from cache at 3599 without fetching, and
refetched (and restored with the new timestamp) at 3601. -/
theorem cache_ttl_read_through_witness :
    bearerGate b0 = .ok u0 ∧
    handle cfg0 (.voices b0 3599 fetchFresh) stCached =
      ⟨.json (.str "cached-voices"), stCached, false, none, none⟩ ∧
    handle cfg0 (.voices b0 3601 fetchFresh) stCached =
      ⟨.json (.str "fresh"),
        { stCached with voices_cache := ⟨some (.str "fresh"), 3601⟩ },
        true, none, none⟩ := by
  have h := cache_ttl_read_through cfg0 b0 u0 3599 stCached fetchFresh rfl
  have h2 := cache_ttl_read_through cfg0 b0 u0 3601 stCached fetchFresh rfl
  refine ⟨rfl, ?_, ?_⟩
  · rw [h.1 ⟨by decide, by decide⟩]; rfl
  · rw [h2.2.1 (by decide) (.str "fresh") rfl]

/-- C2: when the upstream fetch of a catalog request fails (network
error, non-success status, or unparsable body), the endpoint answers 502
carrying the underlying error text, and the whole cache state is exactly
as before the attempt (absent stays absent, stale stays stale). -/
theorem fetch_failure_502_cache_unchanged (cfg : Config) (b : BearerOutcome)
    (u : DecodedToken) (now : Int) (st : ServerState) (fetch : FetchOutcome)
    (e : String) (hAuth : bearerGate b = .ok u)
    (hfetch : runFetch fetch = .error e) :
    (¬(pyTruthy st.voices_cache.data = true ∧
        now - st.voices_cache.timestamp < CACHE_DURATION_SECONDS) →
      handle cfg (.voices b now fetch) st =
        ⟨.error 502 ("Error al contactar la API de HeyGen: " ++ e), st,
          true, none, none⟩) ∧
    (¬(pyTruthy st.avatars_cache.data = true ∧
        now - st.avatars_cache.timestamp < CACHE_DURATION_SECONDS) →
      handle cfg (.avatars b now fetch) st =
        ⟨.error 502 ("Error al contactar la API de HeyGen: " ++ e), st,
          true, none, none⟩) := by
  constructor
  · intro h
    simp [handle, get_voices, hAuth, h, hfetch]
  · intro h
    simp [handle, get_avatars, hAuth, h, hfetch]

/-- Witness for C2: concrete failed fetches against the initial (absent)
state and against a stale truthy state leave each state intact. -/
theorem fetch_failure_502_cache_unchanged_witness :
    bearerGate b0 = .ok u0 ∧
    runFetch fetchFail = .error "boom" ∧
    handle cfg0 (.voices b0 5 fetchFail) initialState =
      ⟨.error 502 "Error al contactar la API de HeyGen: boom", initialState,
        true, none, none⟩ ∧
    handle cfg0 (.avatars b0 9999 fetchFail) stCached =
      ⟨.error 502 "Error al contactar la API de HeyGen: boom", stCached,
        true, none, none⟩ := by
  have h := fetch_failure_502_cache_unchanged cfg0 b0 u0 5 initialState
    fetchFail "boom" rfl rfl
  have h2 := fetch_failure_502_cache_unchanged cfg0 b0 u0 9999 stCached
    fetchFail "boom" rfl rfl
  refine ⟨rfl, rfl, ?_, ?_⟩
  · rw [h.1 (by decide)]; rfl
  · rw [h2.2 (by decide)]; rfl

/-- C9: the cache-presence test is truthiness, so once a falsy JSON
payload (empty object, empty array, null, ...) is stored for a resource
kind, every authenticated request to that catalog endpoint — whatever
the other endpoint's cache holds — invokes the upstream fetch again,
even strictly inside the TTL window; a falsy payload is never served
from cache. -/
theorem falsy_payload_always_refetches (cfg : Config) (b : BearerOutcome)
    (u : DecodedToken) (j : JsonVal) (ts now : Int) (st : ServerState)
    (fetch : FetchOutcome) (hAuth : bearerGate b = .ok u)
    (hfalsy : j.truthy = false) :
    (st.voices_cache = ⟨some j, ts⟩ →
      (handle cfg (.voices b now fetch) st).fetched = true) ∧
    (st.avatars_cache = ⟨some j, ts⟩ →
      (handle cfg (.avatars b now fetch) st).fetched = true) := by
  constructor
  · intro hv
    have hpv : pyTruthy st.voices_cache.data = false := by
      rw [hv]; simpa [pyTruthy] using hfalsy
    simp only [handle, get_voices, hAuth, hpv]
    cases hrf : runFetch fetch <;> simp [hrf]
  · intro ha
    have hpa : pyTruthy st.avatars_cache.data = false := by
      rw [ha]; simpa [pyTruthy] using hfalsy
    simp only [handle, get_avatars, hAuth, hpa]
    cases hrf : runFetch fetch <;> simp [hrf]

/-- Witness for C9 on mixed states: at time 10 (inside the TTL) a voices
request fetches when only the voices entry is falsy (avatars truthy),
and an avatars request fetches when only the avatars entry is falsy
(voices truthy). -/
theorem falsy_payload_always_refetches_witness :
    bearerGate b0 = .ok u0 ∧
    JsonVal.truthy (.obj []) = false ∧
    (handle cfg0 (.voices b0 10 fetchFail)
      ⟨⟨some (.obj []), 0⟩, ⟨some (.str "cached-avatars"), 0⟩⟩).fetched = true ∧
    (handle cfg0 (.avatars b0 10 fetchFail)
      ⟨⟨some (.str "cached-voices"), 0⟩, ⟨some (.arr []), 0⟩⟩).fetched = true := by
  have h1 := falsy_payload_always_refetches cfg0 b0 u0 (.obj []) 0 10
    ⟨⟨some (.obj []), 0⟩, ⟨some (.str "cached-avatars"), 0⟩⟩ fetchFail rfl rfl
  have h2 := falsy_payload_always_refetches cfg0 b0 u0 (.arr []) 0 10
    ⟨⟨some (.str "cached-voices"), 0⟩, ⟨some (.arr []), 0⟩⟩ fetchFail rfl rfl
  exact ⟨rfl, rfl, h1.1 rfl, h2.2 rfl⟩

/-- C3: the upload endpoint's shared-secret gate fails closed: with no
secret configured (unset — or empty, which the code's truthiness test
treats as unconfigured) the response is 500; with a secret configured and
a supplied header absent or different the response is 403 and no file is
written; only an exactly-equal supplied secret passes the gate. -/
theorem shared_secret_gate (cfg : Config) (supplied : Option String)
    (uid filename : String) (content : List Nat) (uuidStr : String)
    (baseUrl : Option String) (st : ServerState) :
    (cfg.N8N_SECRET_KEY = none →
      handle cfg (.upload supplied uid filename content uuidStr baseUrl) st =
        ⟨.error 500 "La clave secreta del servidor no está configurada.",
          st, false, none, none⟩) ∧
    (∀ k, cfg.N8N_SECRET_KEY = some k → k ≠ "" → supplied ≠ some k →
      handle cfg (.upload supplied uid filename content uuidStr baseUrl) st =
        ⟨.error 403 "Acceso denegado: Clave secreta inválida.",
          st, false, none, none⟩) ∧
    (∀ k, cfg.N8N_SECRET_KEY = some k → k ≠ "" →
      verify_n8n_secret cfg.N8N_SECRET_KEY (some k) = .ok true) := by
  refine ⟨?_, ?_, ?_⟩
  · intro h
    simp [handle, upload_image_from_n8n, verify_n8n_secret, h, pyTruthyStr]
  · intro k hk hne hsup
    simp [handle, upload_image_from_n8n, verify_n8n_secret, hk, pyTruthyStr,
      hne, hsup]
  · intro k hk hne
    simp [verify_n8n_secret, hk, pyTruthyStr, hne]

/-- Witness for C3: unset secret gives 500; wrong supplied secret gives
403 with nothing written; equal secret passes. -/
theorem shared_secret_gate_witness :
    handle ⟨none⟩ (.upload (some "s3cret") "u1" "a.png" [1, 2] "uuid-1" none) stCached =
      ⟨.error 500 "La clave secreta del servidor no está configurada.",
        stCached, false, none, none⟩ ∧
    handle cfg0 (.upload (some "wrong") "u1" "a.png" [1, 2] "uuid-1" none) stCached =
      ⟨.error 403 "Acceso denegado: Clave secreta inválida.",
        stCached, false, none, none⟩ ∧
    verify_n8n_secret (some "s3cret") (some "s3cret") = .ok true := by
  have h1 := shared_secret_gate ⟨none⟩ (some "s3cret") "u1" "a.png" [1, 2]
    "uuid-1" none stCached
  have h2 := shared_secret_gate cfg0 (some "wrong") "u1" "a.png" [1, 2]
    "uuid-1" none stCached
  exact ⟨h1.1 rfl, h2.2.1 "s3cret" rfl (by decide) (by decide),
    h2.2.2 "s3cret" rfl (by decide)⟩

/-- C5: the `uid` of the payload posted to the webhook is always the
verified token's uid; the request body's model declares no `uid` field
and body parsing ignores a client-supplied `uid` key entirely. -/
theorem n8n_uid_from_token (cfg : Config) (st : ServerState)
    (b : BearerOutcome) (u : DecodedToken) (body : N8NBody)
    (outcome : HttpCallOutcome) (raw : List (String × JsonVal)) (v : JsonVal)
    (hAuth : bearerGate b = .ok u) :
    (handle cfg (.n8n b body outcome) st).posted =
      some (buildN8NPayload body (u.get "uid")) ∧
    (buildN8NPayload body (u.get "uid")).uid = u.get "uid" ∧
    N8NBody.parse (("uid", v) :: raw) = N8NBody.parse raw := by
  have hm := lookupKey_cons_ne "message" "uid" v raw (by decide)
  have hb := lookupKey_cons_ne "botId" "uid" v raw (by decide)
  have ha := lookupKey_cons_ne "avatarId" "uid" v raw (by decide)
  have hvo := lookupKey_cons_ne "voiceId" "uid" v raw (by decide)
  have hw := lookupKey_cons_ne "videoWidth" "uid" v raw (by decide)
  have hh := lookupKey_cons_ne "videoHeight" "uid" v raw (by decide)
  have ht := lookupKey_cons_ne "type" "uid" v raw (by decide)
  refine ⟨?_, rfl, ?_⟩
  · simp only [handle, proxy_to_n8n, hAuth]
    cases outcome with
    | timeout => rfl
    | netError e => rfl
    | response s t => cases hs : isSuccessStatus s <;> simp [hs]
  · simp [N8NBody.parse, reqStrField, optStrField, optIntField,
      hm, hb, ha, hvo, hw, hh, ht]

/-- Witness for C5: a concrete request body carrying
`"uid": "attacker"` parses the same as without it, and the posted
payload's uid is the token's uid. -/
theorem n8n_uid_from_token_witness :
    bearerGate b0 = .ok u0 ∧
    N8NBody.parse [("uid", .str "attacker"), ("message", .str "hola"),
        ("botId", .str "bot-1"), ("type", .str "chat")] =
      N8NBody.parse [("message", .str "hola"), ("botId", .str "bot-1"),
        ("type", .str "chat")] ∧
    (handle cfg0 (.n8n b0 body0 .timeout) stCached).posted =
      some (buildN8NPayload body0 (some "user-1")) ∧
    (buildN8NPayload body0 (some "user-1")).uid = some "user-1" := by
  have h := n8n_uid_from_token cfg0 stCached b0 u0 body0 .timeout
    [("message", .str "hola"), ("botId", .str "bot-1"), ("type", .str "chat")]
    (.str "attacker") rfl
  refine ⟨rfl, h.2.2, ?_, rfl⟩
  rw [h.1]
  rfl

/-- C6: the webhook proxy maps delivery outcomes to responses exactly:
timeout gives 504, network failure or non-success status gives 502 with
diagnostic detail, and a success status relays the raw response text
verbatim. -/
theorem n8n_delivery_mapping (cfg : Config) (st : ServerState)
    (b : BearerOutcome) (u : DecodedToken) (body : N8NBody)
    (hAuth : bearerGate b = .ok u) :
    (handle cfg (.n8n b body .timeout) st).resp =
      .error 504 "Timeout: n8n tardó demasiado en responder." ∧
    (∀ e, (handle cfg (.n8n b body (.netError e)) st).resp =
      .error 502 ("Error al contactar n8n: " ++ e)) ∧
    (∀ s t, isSuccessStatus s = false →
      (handle cfg (.n8n b body (.response s t)) st).resp =
        .error 502 ("Error al contactar n8n: " ++ statusErrorString s)) ∧
    (∀ s t, isSuccessStatus s = true →
      (handle cfg (.n8n b body (.response s t)) st).resp = .text t) := by
  refine ⟨?_, ?_, ?_, ?_⟩
  · simp [handle, proxy_to_n8n, hAuth]
  · intro e
    simp [handle, proxy_to_n8n, hAuth]
  · intro s t hs
    simp [handle, proxy_to_n8n, hAuth, hs]
  · intro s t hs
    simp [handle, proxy_to_n8n, hAuth, hs]

/-- Witness for C6 at concrete outcomes: timeout, connection failure,
404 and 200. -/
theorem n8n_delivery_mapping_witness :
    bearerGate b0 = .ok u0 ∧
    (handle cfg0 (.n8n b0 body0 .timeout) stCached).resp =
      .error 504 "Timeout: n8n tardó demasiado en responder." ∧
    (handle cfg0 (.n8n b0 body0 (.netError "down")) stCached).resp =
      .error 502 "Error al contactar n8n: down" ∧
    (handle cfg0 (.n8n b0 body0 (.response 404 "nf")) stCached).resp =
      .error 502 ("Error al contactar n8n: " ++ statusErrorString 404) ∧
    (handle cfg0 (.n8n b0 body0 (.response 200 "OK!")) stCached).resp =
      .text "OK!" := by
  have h := n8n_delivery_mapping cfg0 stCached b0 u0 body0 rfl
  refine ⟨rfl, h.1, ?_, h.2.2.1 404 "nf" rfl, h.2.2.2 200 "OK!" rfl⟩
  rw [h.2.1 "down"]
  rfl

/-- C7: an authorized upload writes exactly one file whose path is the
fixed storage directory joined with the fresh UUID string plus the
original filename's extension, writes the uploaded bytes, and returns
`{imageUrl}` where the URL is the configured base URL (default
`http://localhost:8000`) joined with that storage path. -/
theorem upload_success (cfg : Config) (k uid filename : String)
    (content : List Nat) (uuidStr : String) (baseUrl : Option String)
    (st : ServerState) (hk : cfg.N8N_SECRET_KEY = some k) (hne : k ≠ "") :
    handle cfg (.upload (some k) uid filename content uuidStr baseUrl) st =
      ⟨.json (.obj [("imageUrl", .str (baseUrl.getD "http://localhost:8000"
          ++ "/" ++ ("static/images/" ++ (uuidStr ++ (splitext filename).2))))]),
        st, false, none,
        some ⟨"static/images/" ++ (uuidStr ++ (splitext filename).2), content⟩⟩ := by
  simp [handle, upload_image_from_n8n, verify_n8n_secret, hk, pyTruthyStr, hne]

/-- Witness for C7: uploading `photo.png` with UUID `uuid-1` stores
`static/images/uuid-1.png` with the uploaded bytes and returns the
default-base public URL. -/
theorem upload_success_witness :
    cfg0.N8N_SECRET_KEY = some "s3cret" ∧
    handle cfg0 (.upload (some "s3cret") "user-1" "photo.png" [7, 8] "uuid-1" none) stCached =
      ⟨.json (.obj [("imageUrl", .str "http://localhost:8000/static/images/uuid-1.png")]),
        stCached, false, none, some ⟨"static/images/uuid-1.png", [7, 8]⟩⟩ := by
  have h := upload_success cfg0 "s3cret" "user-1" "photo.png" [7, 8] "uuid-1"
    none stCached rfl (by decide)
  refine ⟨rfl, ?_⟩
  rw [h]
  rfl

/-- C10: frame property — a cache hit leaves the entire state unchanged
(no sliding expiry); the voices handler never touches the avatars entry
and vice versa; and `/api/me`, `/api/n8n` and `/api/upload-image` leave
the whole cache state unchanged. -/
theorem handlers_frame (cfg : Config) (st : ServerState) (b : BearerOutcome)
    (now : Int) (fetch : FetchOutcome) (body : N8NBody)
    (outcome : HttpCallOutcome) (supplied : Option String)
    (uid filename : String) (content : List Nat) (uuidStr : String)
    (baseUrl : Option String) :
    (pyTruthy st.voices_cache.data = true ∧
        now - st.voices_cache.timestamp < CACHE_DURATION_SECONDS →
      (handle cfg (.voices b now fetch) st).state = st) ∧
    (pyTruthy st.avatars_cache.data = true ∧
        now - st.avatars_cache.timestamp < CACHE_DURATION_SECONDS →
      (handle cfg (.avatars b now fetch) st).state = st) ∧
    (handle cfg (.voices b now fetch) st).state.avatars_cache = st.avatars_cache ∧
    (handle cfg (.avatars b now fetch) st).state.voices_cache = st.voices_cache ∧
    (handle cfg (.me b) st).state = st ∧
    (handle cfg (.n8n b body outcome) st).state = st ∧
    (handle cfg (.upload supplied uid filename content uuidStr baseUrl) st).state = st := by
  refine ⟨?_, ?_, ?_, ?_, ?_, ?_, ?_⟩
  · intro h
    cases hb : bearerGate b with
    | error e => simp [handle, get_voices, hb]
    | ok u => simp [handle, get_voices, hb, h]
  · intro h
    cases hb : bearerGate b with
    | error e => simp [handle, get_avatars, hb]
    | ok u => simp [handle, get_avatars, hb, h]
  · cases hb : bearerGate b with
    | error e => simp [handle, get_voices, hb]
    | ok u =>
      simp only [handle, get_voices, hb]
      split
      · rfl
      · cases hrf : runFetch fetch <;> simp [hrf]
  · cases hb : bearerGate b with
    | error e => simp [handle, get_avatars, hb]
    | ok u =>
      simp only [handle, get_avatars, hb]
      split
      · rfl
      · cases hrf : runFetch fetch <;> simp [hrf]
  · cases hb : bearerGate b with
    | error e => simp [handle, get_my_info, hb]
    | ok u => simp [handle, get_my_info, hb]
  · cases hb : bearerGate b with
    | error e => simp [handle, proxy_to_n8n, hb]
    | ok u =>
      cases outcome with
      | timeout => simp [handle, proxy_to_n8n, hb]
      | netError e => simp [handle, proxy_to_n8n, hb]
      | response s t =>
        simp only [handle, proxy_to_n8n, hb]
        cases hs : isSuccessStatus s <;> simp [hs]
  · cases hv : verify_n8n_secret cfg.N8N_SECRET_KEY supplied with
    | error e => simp [handle, upload_image_from_n8n, hv]
    | ok okv => simp [handle, upload_image_from_n8n, hv]

/-- Witness for C10: concrete cache hits leave the state untouched, a
voices miss leaves the avatars entry untouched, and a concrete upload
leaves the whole state untouched. -/
theorem handlers_frame_witness :
    (handle cfg0 (.voices b0 5 fetchFresh) stCached).state = stCached ∧
    (handle cfg0 (.avatars b0 5 fetchFresh) stCached).state = stCached ∧
    (handle cfg0 (.voices b0 9999 fetchFresh) stCached).state.avatars_cache =
      stCached.avatars_cache ∧
    (handle cfg0 (.n8n b0 body0 .timeout) stCached).state = stCached ∧
    (handle cfg0 (.upload (some "s3cret") "u" "a.png" [1] "id" none) stCached).state = stCached := by
  have h := handlers_frame cfg0 stCached b0 5 fetchFresh body0 .timeout
    (some "s3cret") "u" "a.png" [1] "id" none
  have h2 := handlers_frame cfg0 stCached b0 9999 fetchFresh body0 .timeout
    (some "s3cret") "u" "a.png" [1] "id" none
  exact ⟨h.1 ⟨by decide, by decide⟩, h.2.1 ⟨by decide, by decide⟩,
    h2.2.2.1, h.2.2.2.2.2.1, h.2.2.2.2.2.2⟩
